import Mathlib

/-!
Verification of the fluent SQL statement builder (`src/SQL.js`).

The development shallowly embeds the data model and the operations of the
builder:

* `Value` models the JavaScript runtime values that can appear in the
  parameter list of a builder (`null`, `undefined`, strings, numbers, bigints,
  `Buffer` byte sequences, booleans, plain objects, functions).  Machine
  numbers are modelled as `Int` (the specification and claims only exercise
  integral numbers); distinct object references are modelled as a single
  opaque `vobj` constructor, and two distinct references never compare
  loosely equal.
* `SQLState` models an `SQL` builder instance: its `sql` text, `params`
  list and the `hasWhere` flag (a deleted property is modelled as `false`).
* `appendText` / `append` model `SQL.prototype.append`, including the
  `this.sql.length>1` test of the source.
* `SQLState.toString` models `SQL.prototype.toString`, the debug renderer,
  as a character walk replacing each `?` left to right
  (`replaceParams`); an unsupported parameter type produces
  `Except.error` carrying the thrown message.
* `CondValue`, `buildExpr`, `buildCondition` model the condition compiler
  `SQL.buildCondition` and its inner `build_expression`, keeping the exact
  source order of the `$ne`/`$lt`/.../`$not` checks.  A JavaScript
  `TypeError` (property access on `undefined`/`null`) is modelled as
  `none`.
* `whereCond`, `andCond`, `orCond`, `andWhere` model the
  `where`/`and`/`or`/`andWhere` methods; `setValues` models `set`.
-/

/-- A JavaScript runtime value as far as the builder is concerned.
`vnum` carries the integral numbers exercised by the specification;
`vbuf` is a `Buffer` as its byte list; `vobj` is an opaque plain object
reference (two occurrences of `vobj` stand for distinct references). -/
inductive Value where
  | vnull
  | vundef
  | vstr (s : String)
  | vnum (n : Int)
  | vbigint (n : Int)
  | vbuf (bytes : List Nat)
  | vbool (b : Bool)
  | vobj
  | vfunc
deriving DecidableEq, Repr

/-- The single-quote character, written numerically. -/
def squote : Char := Char.ofNat 39

/-- Models `typeof v` in JavaScript (note that `typeof null` is the
string `object`). -/
def typeofStr : Value → String
  | Value.vnull => "object"
  | Value.vundef => "undefined"
  | Value.vstr _ => "string"
  | Value.vnum _ => "number"
  | Value.vbigint _ => "bigint"
  | Value.vbuf _ => "object"
  | Value.vbool _ => "boolean"
  | Value.vobj => "object"
  | Value.vfunc => "function"

/-- The message of the error thrown by `toString` for an unsupported
parameter type (source line 70). -/
def errMsg (t : String) : String :=
  "Invalid parameter type: \x27" ++ t ++ "\x27 must be number, string, bigint, buffer, or null"

/-- Models the quote-doubling replace inside `quoteString` (source line
78): every single-quote character becomes two. -/
def doubleQuotes : List Char → List Char
  | [] => []
  | c :: rest => if c = squote then squote :: squote :: doubleQuotes rest else c :: doubleQuotes rest

/-- Models `quoteString` (source lines 76-79): wrap in single quotes,
doubling internal single quotes. -/
def quoteString (s : String) : String :=
  String.singleton squote ++ (doubleQuotes s.data).asString ++ String.singleton squote

/-- One byte rendered as two lowercase hex digits (`Buffer.toString("hex")`). -/
def hexByte (b : Nat) : String :=
  String.mk [Nat.digitChar ((b / 16) % 16), Nat.digitChar (b % 16)]

/-- A whole buffer rendered as lowercase hex. -/
def bufHex (bytes : List Nat) : String :=
  String.join (bytes.map hexByte)

/-- The rendering of one bound parameter by `toString` (source lines 53-70):
loose `pv == null` catches both `null` and `undefined`; strings are quoted;
`Buffer`s become X-prefixed quoted hex literals; numbers and bigints
print in decimal;
anything else throws. -/
def renderParam : Value → Except String String
  | Value.vnull => Except.ok "NULL"
  | Value.vundef => Except.ok "NULL"
  | Value.vstr s => Except.ok (quoteString s)
  | Value.vbuf bytes => Except.ok ("X\x27" ++ bufHex bytes ++ "\x27")
  | Value.vbigint n => Except.ok (toString n)
  | Value.vnum n => Except.ok (toString n)
  | v => Except.error (errMsg (typeofStr v))

/-- A parameter type `toString` refuses: not null/undefined, not a string,
not a number, not a bigint, not a buffer. -/
def unsupportedParam : Value → Bool
  | Value.vbool _ => true
  | Value.vobj => true
  | Value.vfunc => true
  | _ => false

/-- Number of `?` placeholders in a character list. -/
def countQ : List Char → Nat
  | [] => 0
  | c :: rest => (if c = '?' then 1 else 0) + countQ rest

/-- The `this.sql.replace(/\?/g, ...)` walk of `toString` (source lines
50-74): each `?` consumes the next parameter while one is available and is
replaced by its rendering; once parameters are exhausted the remaining `?`
stay literal.  A parameter of unsupported type propagates the thrown
error. -/
def replaceParams : List Char → List Value → Except String String
  | [], _ => Except.ok ""
  | c :: rest, ps =>
    if c = '?' then
      match ps with
      | [] =>
        match replaceParams rest [] with
        | Except.error e => Except.error e
        | Except.ok s => Except.ok ("?" ++ s)
      | p :: tl =>
        match renderParam p with
        | Except.error e => Except.error e
        | Except.ok r =>
          match replaceParams rest tl with
          | Except.error e => Except.error e
          | Except.ok s => Except.ok (r ++ s)
    else
      match replaceParams rest ps with
      | Except.error e => Except.error e
      | Except.ok s => Except.ok (c.toString ++ s)

/-- The state of an `SQL` builder instance: accumulated text, parameter
list, and the `hasWhere` flag (`delete this.hasWhere` is modelled as
setting it to `false`). -/
structure SQLState where
  sql : String
  params : List Value
  hasWhere : Bool
deriving DecidableEq, Repr

/-- A freshly constructed `new SQL()` with no arguments. -/
def emptySQL : SQLState := ⟨"", [], false⟩

/-- The text-appending core of `append` (source lines 119-136): a space is
inserted only when the accumulated text has length greater than one
(`this.sql.length>1`), otherwise the fragment replaces the text; parameters
are concatenated; `hasWhere` was deleted on entry. -/
def appendText (b : SQLState) (s : String) (ps : List Value) : SQLState :=
  { sql := if b.sql.length > 1 then b.sql ++ " " ++ s else s
    params := b.params ++ ps
    hasWhere := false }

/-- The possible first arguments of `append`. -/
inductive AppendArg where
  | noArg
  | nullArg
  | text (s : String) (ps : List Value)
  | sqlArg (other : SQLState)

/-- Models `SQL.prototype.append` (source lines 106-139): `hasWhere` is deleted
unconditionally; `undefined`/`null` fragments only do that; another builder
delegates to its text and parameters. -/
def append (b : SQLState) : AppendArg → SQLState
  | AppendArg.noArg => { b with hasWhere := false }
  | AppendArg.nullArg => { b with hasWhere := false }
  | AppendArg.text s ps => appendText b s ps
  | AppendArg.sqlArg other => appendText b other.sql other.params

/-- Models `new SQL(text, ...params)`: the constructor starts empty and
delegates to `append` (source lines 27-32). -/
def mkSQL (s : String) (ps : List Value) : SQLState :=
  appendText emptySQL s ps

/-- Models `SQL.prototype.toString` (source lines 46-80). -/
def SQLState.toString (b : SQLState) : Except String String :=
  replaceParams b.sql.data b.params

/-- The value of a subquery used with `$in`: either a plain array or
another `SQL` instance (its text and parameters). -/
inductive InArg where
  | arr (elems : List Value)
  | sub (sqlText : String) (ps : List Value)
deriving DecidableEq, Repr

mutual
/-- A value appearing in a condition mapping handed to `buildCondition`:
`null`, a plain primitive scalar (never `null`, which is `cnull`), or an
operator object.  Each `Option Value` field models the corresponding `$`
property; `none` stands for an absent (or `undefined`-valued) property,
which the source treats identically via `!== undefined` checks. -/
inductive CondValue where
  | cnull
  | scalar (v : Value)
  | obj (ne lt gt lte gte le ge eq like glob is_ isnot : Option Value)
        (in_ : Option InArg) (nin : Option (List Value))
        (orL : OptCondList) (andL : OptCondList) (notF : OptCondVal)
/-- Presence marker for the `$not` property. -/
inductive OptCondVal where
  | onone
  | osome (v : CondValue)
/-- Presence marker for the `$or` / `$and` properties. -/
inductive OptCondList where
  | lnone
  | lsome (l : CondList)
/-- The array of sub-conditions of `$or` / `$and`. -/
inductive CondList where
  | nil
  | cons (hd : CondValue) (tl : CondList)
end

/-- Backtick-quote a column name. -/
def bq (k : String) : String := "`" ++ k ++ "`"

/-- Reading a possibly absent property: an absent property reads as
`undefined`. -/
def jsField : Option Value → Value
  | some x => x
  | none => Value.vundef

/-- Reading `.$is` off a condition value that is not `null`. -/
def readIs : CondValue → Option Value
  | CondValue.obj _ _ _ _ _ _ _ _ _ _ is_ _ _ _ _ _ _ => is_
  | _ => none

/-- Models the placeholder-list construction of the `$in` branch:
`n` question marks joined with bare commas. -/
def placeholders (n : Nat) : String :=
  String.intercalate "," (List.replicate n "?")

mutual
/-- The inner `build_expression` of `buildCondition` (source lines
1045-1132) for column `key`: the `$` checks are performed in the exact
source order, the first present property winning.  `none` models a thrown
`TypeError`:
* a `scalar Value.vundef` value crashes at `v.$ne` (property read on
  `undefined`),
* the `$nin` branch (source lines 1077-1085) reads `v.$in.length`, and
  `v.$in` is necessarily `undefined` there because a present `$in` already
  returned at line 1060-1076, so it always crashes,
* `$not: null` crashes at `v.$not.$is`.
The `$eq` branch (source line 1055) pushes `v.$ge` — which is `undefined`
at that point — not `v.$eq`.  The final default (source lines 1130-1131)
emits the key without backticks and pushes the value itself (an operator
object falling through pushes the object reference, modelled `vobj`). -/
def buildExpr (key : String) : CondValue → Option (String × List Value)
  | CondValue.cnull => some (bq key ++ " IS NULL", [])
  | CondValue.scalar v =>
    if v = Value.vundef then none
    else some (key ++ " = ?", [v])
  | CondValue.obj ne lt gt lte gte le ge eq like glob is_ isnot in_ nin orL andL notF =>
    match ne with
    | some x => some (bq key ++ " <> ?", [x])
    | none =>
    match lt with
    | some x => some (bq key ++ " < ?", [x])
    | none =>
    match gt with
    | some x => some (bq key ++ " > ?", [x])
    | none =>
    match lte with
    | some x => some (bq key ++ " <= ?", [x])
    | none =>
    match gte with
    | some x => some (bq key ++ " >= ?", [x])
    | none =>
    match le with
    | some x => some (bq key ++ " <= ?", [x])
    | none =>
    match ge with
    | some x => some (bq key ++ " >= ?", [x])
    | none =>
    match eq with
    | some _ => some (bq key ++ " = ?", [jsField ge])
    | none =>
    match like with
    | some x => some (bq key ++ " LIKE ?", [x])
    | none =>
    match glob with
    | some x => some (bq key ++ " GLOB ?", [x])
    | none =>
    if is_ = some Value.vnull then some (bq key ++ " IS NULL", [])
    else
    if isnot = some Value.vnull then some (bq key ++ " IS NOT NULL", [])
    else
    match in_ with
    | some (InArg.sub s ps) => some (bq key ++ " IN (" ++ s ++ ")", ps)
    | some (InArg.arr l) => some (bq key ++ " IN (" ++ placeholders l.length ++ ")", l)
    | none =>
    match nin with
    | some _ => none
    | none =>
    match orL with
    | OptCondList.lsome subs =>
      match buildExprList key subs with
      | none => none
      | some (es, ps) => some ("(" ++ String.intercalate " OR " es ++ ")", ps)
    | OptCondList.lnone =>
    match andL with
    | OptCondList.lsome subs =>
      match buildExprList key subs with
      | none => none
      | some (es, ps) => some ("(" ++ String.intercalate " AND " es ++ ")", ps)
    | OptCondList.lnone =>
    match notF with
    | OptCondVal.osome nv =>
      match nv with
      | CondValue.cnull => none
      | nv' =>
        if readIs nv' = some Value.vnull then some (bq key ++ " IS NOT NULL", [])
        else
          match buildExpr key nv' with
          | none => none
          | some (e, ps) => some ("NOT (" ++ e ++ ")", ps)
    | OptCondVal.onone =>
    some (key ++ " = ?", [Value.vobj])

/-- Sequential compilation of the `$or`/`$and` sub-condition array: each
sub-expression contributes one string; parameters accumulate in order. -/
def buildExprList (key : String) : CondList → Option (List String × List Value)
  | CondList.nil => some ([], [])
  | CondList.cons hd tl =>
    match buildExpr key hd with
    | none => none
    | some (e, ps) =>
      match buildExprList key tl with
      | none => none
      | some (es, ps') => some (e :: es, ps ++ ps')
end

/-- A key is skipped when its first character is `$` or `.` (source lines
1040-1041); an empty key has no first character and is kept. -/
def reservedKey (k : String) : Bool :=
  match k.data with
  | [] => false
  | c :: _ => c = '$' || c = '.'

/-- The `for (let [key, value] of Object.entries(condition))` loop of
`buildCondition` (source lines 1036-1133): reserved keys are skipped, each
remaining key contributes one compiled expression, parameters accumulate
in order. -/
def collectEntries : List (String × CondValue) → Option (List String × List Value)
  | [] => some ([], [])
  | (k, v) :: rest =>
    if reservedKey k then collectEntries rest
    else
      match buildExpr k v with
      | none => none
      | some (e, ps) =>
        match collectEntries rest with
        | none => none
        | some (es, ps') => some (e :: es, ps ++ ps')

/-- Models `SQL.buildCondition` applied to a condition mapping (source lines
1036-1138): zero compiled expressions yield the literal `"TRUE"` with no
parameters, otherwise the expressions are joined with `" AND "` and
parenthesized. -/
def buildCondition (entries : List (String × CondValue)) : Option (String × List Value) :=
  match collectEntries entries with
  | none => none
  | some (es, ps) =>
    if es = [] then some ("TRUE", [])
    else some ("(" ++ String.intercalate " AND " es ++ ")", ps)

/-- The argument shapes of the `where`/`and`/`or` family. -/
inductive CondArg where
  | noArgs
  | undefArg
  | nullArg
  | strArg (s : String) (ps : List Value)
  | sqlArg (b : SQLState)
  | mapArg (entries : List (String × CondValue))

/-- Models `SQL.buildCondition` over every argument shape (source lines
1022-1138): an `SQL` instance passes through, a string becomes a fresh
builder over that string and its parameters, a mapping is compiled;
`Object.entries` on `undefined`/`null` throws. -/
def buildConditionArg : CondArg → Option (String × List Value)
  | CondArg.noArgs => none
  | CondArg.undefArg => none
  | CondArg.nullArg => none
  | CondArg.strArg s ps => some (s, ps)
  | CondArg.sqlArg b => some (b.sql, b.params)
  | CondArg.mapArg entries => buildCondition entries

/-- Models `SQL.prototype.where` (source lines 435-444): with no argument, or a
single argument loosely equal to `undefined` (which includes `null`), the
method returns `this` untouched; otherwise it appends `WHERE`, appends the
compiled condition, and sets `hasWhere`. -/
def whereCond (b : SQLState) : CondArg → Option SQLState
  | CondArg.noArgs => some b
  | CondArg.undefArg => some b
  | CondArg.nullArg => some b
  | arg =>
    match buildConditionArg arg with
    | none => none
    | some (s, ps) =>
      some { appendText (append b (AppendArg.text "WHERE" [])) s ps with hasWhere := true }

/-- Models `SQL.prototype.and` (source lines 654-658): append `AND`, then the
compiled condition; `hasWhere` ends up deleted by `append`. -/
def andCond (b : SQLState) (arg : CondArg) : Option SQLState :=
  match buildConditionArg arg with
  | none => none
  | some (s, ps) => some (appendText (append b (AppendArg.text "AND" [])) s ps)

/-- Models `SQL.prototype.or` (source lines 688-692). -/
def orCond (b : SQLState) (arg : CondArg) : Option SQLState :=
  match buildConditionArg arg with
  | none => none
  | some (s, ps) => some (appendText (append b (AppendArg.text "OR" [])) s ps)

/-- Models `SQL.prototype.andWhere` (source lines 472-480): delegate to `and`
when `hasWhere` is set, else to `where`; afterwards always set
`hasWhere`. -/
def andWhere (b : SQLState) (arg : CondArg) : Option SQLState :=
  match (if b.hasWhere then andCond b arg else whereCond b arg) with
  | none => none
  | some b1 => some { b1 with hasWhere := true }

/-- JavaScript truthiness of a value. -/
def truthy : Value → Bool
  | Value.vnull => false
  | Value.vundef => false
  | Value.vbool b => b
  | Value.vnum n => n != 0
  | Value.vbigint n => n != 0
  | Value.vstr s => s != ""
  | Value.vbuf _ => true
  | Value.vobj => true
  | Value.vfunc => true

/-- JavaScript `ToNumber` restricted to the integral values this model
carries: `null` is `0`, booleans are `0`/`1`, strings parse as optionally
signed decimal integers (the empty or all-blank string is `0`); `none`
stands for `NaN` (or a non-numeric operand). -/
def toNumber? : Value → Option Int
  | Value.vnull => some 0
  | Value.vbool b => some (if b then 1 else 0)
  | Value.vnum n => some n
  | Value.vbigint n => some n
  | Value.vstr s =>
    let t := s.trim
    if t = "" then some 0
    else
      let signed : Int × List Char :=
        match t.data with
        | '-' :: r => (-1, r)
        | '+' :: r => (1, r)
        | r => (1, r)
      if signed.2 ≠ [] ∧ signed.2.all Char.isDigit then
        some (signed.1 * (signed.2.foldl (fun a c => a * 10 + (c.toNat - 48)) 0 : Nat))
      else none
  | _ => none

/-- JavaScript loose equality on the value space of this model: `null` and
`undefined` are equal to each other and to nothing else; two strings
compare as strings; otherwise both sides convert with `ToNumber` and
compare numerically (object references — `vbuf`, `vobj`, `vfunc` — stand
for distinct references and convert to `none`, so they are never loosely
equal). -/
def looseEq (a b : Value) : Bool :=
  match a, b with
  | Value.vnull, Value.vnull => true
  | Value.vnull, Value.vundef => true
  | Value.vundef, Value.vnull => true
  | Value.vundef, Value.vundef => true
  | Value.vnull, _ => false
  | _, Value.vnull => false
  | Value.vundef, _ => false
  | _, Value.vundef => false
  | Value.vstr x, Value.vstr y => x == y
  | x, y =>
    match toNumber? x, toNumber? y with
    | some m, some n => m == n
    | _, _ => false

/-- The skip-unchanged test of `set` (source line 354):
`originalValues && originalValues[key] && originalValues[key] == values[key]`
— the original value must exist, be truthy, and loosely equal the new
value. -/
def setSkip (orig : Option (List (String × Value))) (k : String) (v : Value) : Bool :=
  match orig with
  | none => false
  | some l =>
    match l.lookup k with
    | none => false
    | some ov => truthy ov && looseEq ov v

/-- Is this value a JavaScript function? (`values[key] instanceof Function`). -/
def isFunc : Value → Bool
  | Value.vfunc => true
  | _ => false

/-- The key loop of `set` (source lines 345-360): reserved keys and
function values are skipped entirely, unchanged keys (per `setSkip`) are
elided, every other key contributes the backtick-quoted assignment of `key` and its new value as a
parameter. -/
def setEntries (values : List (String × Value)) (orig : Option (List (String × Value))) :
    List String × List Value :=
  match values with
  | [] => ([], [])
  | (k, v) :: rest =>
    if reservedKey k || isFunc v then setEntries rest orig
    else if setSkip orig k v then setEntries rest orig
    else
      ((bq k ++ " = ?") :: (setEntries rest orig).1, v :: (setEntries rest orig).2)

/-- Models `SQL.prototype.set` applied to a mapping (source lines 335-363):
append `SET`, then the comma-joined assignment list with its parameters
(`setExpressions.join()` joins with a bare comma). -/
def setValues (b : SQLState) (values : List (String × Value))
    (orig : Option (List (String × Value))) : SQLState :=
  let b1 := append b (AppendArg.text "SET" [])
  let (es, ps) := setEntries values orig
  appendText b1 (String.intercalate "," es) ps

/-- Occurrences of `needle` in `hay` (at every starting position). -/
def countSub (needle : List Char) : List Char → Nat
  | [] => 0
  | c :: rest => (if needle.isPrefixOf (c :: rest) then 1 else 0) + countSub needle rest

/-! ## Helper lemmas -/

theorem intercalate_singleton (s x : String) : String.intercalate s [x] = x := rfl

theorem asString_cons (c : Char) (rest : List Char) :
    (c :: rest).asString = c.toString ++ rest.asString := rfl

/-! ## C1: append of a text fragment and of another builder -/

/-- C1 fails as stated: a builder whose accumulated text is the non-empty
one-character string `(` does not receive a space-separated fragment —
the fragment replaces the text entirely, because the source tests
`this.sql.length>1`, not emptiness. -/
theorem claim_C1_counterexample :
    (append emptySQL (AppendArg.text "(" [])).sql = "(" ∧
    ("(" : String) ≠ "" ∧
    (append (append emptySQL (AppendArg.text "(" [])) (AppendArg.text "X" [])).sql = "X" ∧
    ("X" : String) ≠ "( X" := by
  decide

/-- C1 (amended): for every builder whose accumulated text has length at
least two, `append` space-joins the fragment and concatenates the supplied
parameters; the parameter concatenation holds for every builder; and
appending another builder instance is exactly appending its text and its
parameter list. -/
theorem claim_C1 :
    (∀ (b : SQLState) (s : String) (ps : List Value), b.sql.length > 1 →
      append b (AppendArg.text s ps) = ⟨b.sql ++ " " ++ s, b.params ++ ps, false⟩) ∧
    (∀ (b : SQLState) (s : String) (ps : List Value),
      (append b (AppendArg.text s ps)).params = b.params ++ ps) ∧
    (∀ b other : SQLState,
      append b (AppendArg.sqlArg other) = append b (AppendArg.text other.sql other.params)) := by
  refine ⟨fun b s ps h => ?_, fun b s ps => rfl, fun b other => rfl⟩
  simp [append, appendText, h]

/-- C1 witness: the amended statement at the concrete builder with text
`AB`. -/
theorem claim_C1_witness :
    ("AB" : String).length > 1 ∧
    append ⟨"AB", [], false⟩ (AppendArg.text "C" [Value.vnum 1]) =
      ⟨"AB C", [Value.vnum 1], false⟩ := by
  refine ⟨by decide, ?_⟩
  exact (claim_C1.1 ⟨"AB", [], false⟩ "C" [Value.vnum 1] (by decide)).trans (by decide)

/-! ## C2: the `$eq` branch binds `v.$ge` -/

/-- C2: for a value object carrying `$eq` and none of the earlier-checked
operator keys (`$ne`, `$lt`, `$gt`, `$lte`, `$gte`, `$le`, `$ge`), the
compiled text is the backtick-quoted equality on `k` but the bound parameter is the (absent, hence
`undefined`) `$ge` field — not `x`. -/
theorem claim_C2 (k : String) (x : Value) (_hx : x ≠ Value.vundef)
    (hk : reservedKey k = false) :
    buildExpr k (CondValue.obj none none none none none none none (some x) none none none none
        none none OptCondList.lnone OptCondList.lnone OptCondVal.onone) =
      some (bq k ++ " = ?", [Value.vundef]) ∧
    buildCondition [(k, CondValue.obj none none none none none none none (some x) none none
        none none none none OptCondList.lnone OptCondList.lnone OptCondVal.onone)] =
      some ("(" ++ (bq k ++ " = ?") ++ ")", [Value.vundef]) := by
  have h1 : buildExpr k (CondValue.obj none none none none none none none (some x) none none
      none none none none OptCondList.lnone OptCondList.lnone OptCondVal.onone) =
      some (bq k ++ " = ?", [Value.vundef]) := rfl
  refine ⟨h1, ?_⟩
  simp [buildCondition, collectEntries, hk, h1, intercalate_singleton]

/-- C2 witness: the concrete query `{age: {$eq: 21}}` compiles to
```(`age` = ?)``` binding `undefined`, not `21`. -/
theorem claim_C2_witness :
    buildCondition [("age", CondValue.obj none none none none none none none
        (some (Value.vnum 21)) none none none none none none OptCondList.lnone
        OptCondList.lnone OptCondVal.onone)] =
      some ("(`age` = ?)", [Value.vundef]) :=
  ((claim_C2 "age" (Value.vnum 21) (by decide) (by decide)).2).trans (by decide)

/-! ## C3: `$nin` always crashes -/

/-- C3: the `$nin` branch reads `v.$in.length`, and `v.$in` is necessarily
`undefined` when that branch is reached, so compiling
`{age: {$nin: [1, 2]}}` throws a `TypeError` instead of emitting
a NOT-IN clause on the quoted column `age`; the crash is modelled as `none`. -/
theorem claim_C3_crash :
    buildExpr "age" (CondValue.obj none none none none none none none none none none none none
        none (some [Value.vnum 1, Value.vnum 2]) OptCondList.lnone OptCondList.lnone
        OptCondVal.onone) = none ∧
    buildCondition [("age", CondValue.obj none none none none none none none none none none
        none none none (some [Value.vnum 1, Value.vnum 2]) OptCondList.lnone OptCondList.lnone
        OptCondVal.onone)] = none := by
  decide

/-! ## C4: the default-equality branch does not backtick-quote -/

/-- C4 fails as stated: a plain scalar compiles to `k = ?` with the column
name unquoted (source line 1130 pushes `key + " = ?"`), not to
`the backtick-quoted equality on `k``. -/
theorem claim_C4_counterexample :
    buildCondition [("k", CondValue.scalar (Value.vnum 5))] =
      some ("(k = ?)", [Value.vnum 5]) ∧
    ("(k = ?)" : String) ≠ "(`k` = ?)" := by
  decide

/-- C4 (amended): for every non-reserved column name `k` and plain scalar
`v` (not `null`, not `undefined`), the default-equality branch emits the
column name unquoted: the per-key text is `k = ?` with `v` bound. -/
theorem claim_C4 (k : String) (v : Value) (hk : reservedKey k = false)
    (hv1 : v ≠ Value.vundef) (_hv2 : v ≠ Value.vnull) :
    buildExpr k (CondValue.scalar v) = some (k ++ " = ?", [v]) ∧
    buildCondition [(k, CondValue.scalar v)] = some ("(" ++ (k ++ " = ?") ++ ")", [v]) := by
  have h1 : buildExpr k (CondValue.scalar v) = some (k ++ " = ?", [v]) := by
    simp [buildExpr, hv1]
  refine ⟨h1, ?_⟩
  simp [buildCondition, collectEntries, hk, h1, intercalate_singleton]

/-- C4 witness: the amended statement at `{name: "Joe"}`. -/
theorem claim_C4_witness :
    buildCondition [("name", CondValue.scalar (Value.vstr "Joe"))] =
      some ("(name = ?)", [Value.vstr "Joe"]) :=
  ((claim_C4 "name" (Value.vstr "Joe") (by decide) (by decide) (by decide)).2).trans (by decide)

/-! ## C6: andWhere twice emits WHERE then AND -/

/-- C6: starting from an empty builder, `andWhere({a:1})` then
`andWhere({b:2})` yields the text `WHERE (a = ?) AND (b = ?)` — containing
exactly one `WHERE` and exactly one `AND`, in that order — with parameters
`[1, 2]`, and leaves the pending-WHERE flag set. -/
theorem claim_C6 :
    ((andWhere emptySQL (CondArg.mapArg [("a", CondValue.scalar (Value.vnum 1))])).bind
        fun b1 => andWhere b1 (CondArg.mapArg [("b", CondValue.scalar (Value.vnum 2))])) =
      some ⟨"WHERE (a = ?) AND (b = ?)", [Value.vnum 1, Value.vnum 2], true⟩ ∧
    countSub "WHERE".data "WHERE (a = ?) AND (b = ?)".data = 1 ∧
    countSub "AND".data "WHERE (a = ?) AND (b = ?)".data = 1 := by
  decide

/-! ## C7: empty and all-reserved conditions compile to TRUE -/

theorem collectEntries_all_reserved :
    ∀ entries : List (String × CondValue),
      (∀ p ∈ entries, reservedKey p.1 = true) → collectEntries entries = some ([], []) := by
  intro entries
  induction entries with
  | nil => intro _; rfl
  | cons p rest ih =>
    intro h
    obtain ⟨k, v⟩ := p
    have hk : reservedKey k = true := h (k, v) (by simp)
    have hr : ∀ q ∈ rest, reservedKey q.1 = true := fun q hq => h q (by simp [hq])
    simp [collectEntries, hk, ih hr]

/-- C7: `buildCondition({})`, and `buildCondition` of any mapping all of
whose keys start with `$` or `.`, yields the literal text `TRUE` with zero
parameters. -/
theorem claim_C7 :
    buildCondition [] = some ("TRUE", []) ∧
    ∀ entries : List (String × CondValue),
      (∀ p ∈ entries, reservedKey p.1 = true) → buildCondition entries = some ("TRUE", []) := by
  refine ⟨rfl, fun entries h => ?_⟩
  simp [buildCondition, collectEntries_all_reserved entries h]

/-- C7 witness: a mapping whose two keys are `$`- and `.`-prefixed. -/
theorem claim_C7_witness :
    buildCondition [("$x", CondValue.scalar (Value.vnum 1)), (".y", CondValue.cnull)] =
      some ("TRUE", []) :=
  claim_C7.2 [("$x", CondValue.scalar (Value.vnum 1)), (".y", CondValue.cnull)] (by decide)

/-! ## C10: where(null) is a complete no-op -/

/-- C10: calling `where` with a single `null` argument returns the builder
unchanged — no text, no parameters, no `WHERE`, no pending-WHERE flag —
because `arguments[0] == undefined` is loosely true for `null`. -/
theorem claim_C10 : ∀ b : SQLState, whereCond b CondArg.nullArg = some b := fun _ => rfl


/-! ## C5: set elision requires a truthy original value -/

/-- The retention predicate of the `set` loop: the key is not reserved,
the value is not a function, and the skip-unchanged test does not fire. -/
def setKeep (orig : Option (List (String × Value))) (p : String × Value) : Bool :=
  !(reservedKey p.1 || isFunc p.2) && !setSkip orig p.1 p.2

/-- C5 fails as stated: with `set({a: 0}, {a: 0})` the original value `0`
loosely equals the new value, yet the column is not omitted, because the
skip test first requires `originalValues[key]` to be truthy and `0` is
falsy. -/
theorem claim_C5_counterexample :
    looseEq (Value.vnum 0) (Value.vnum 0) = true ∧
    setEntries [("a", Value.vnum 0)] (some [("a", Value.vnum 0)]) =
      (["`a` = ?"], [Value.vnum 0]) ∧
    setValues emptySQL [("a", Value.vnum 0)] (some [("a", Value.vnum 0)]) =
      ⟨"SET `a` = ?", [Value.vnum 0], false⟩ := by
  decide

/-- C5 (amended): `set(values, originalValues)` omits a retained key
exactly when its value in `originalValues` is present, truthy, and loosely
equal to the new value (`setSkip`); every other retained key emits
the backtick-quoted assignment of `key` and binds the new value, in order (`setKeep`).  In
particular `set({a:1, b:2}, {a:1, b:3})` covers column `b` only, with
parameter list `[2]`. -/
theorem claim_C5 :
    (∀ (values : List (String × Value)) (orig : Option (List (String × Value))),
      setEntries values orig =
        ((values.filter (setKeep orig)).map fun p => bq p.1 ++ " = ?",
         (values.filter (setKeep orig)).map Prod.snd)) ∧
    setEntries [("a", Value.vnum 1), ("b", Value.vnum 2)]
        (some [("a", Value.vnum 1), ("b", Value.vnum 3)]) = (["`b` = ?"], [Value.vnum 2]) ∧
    setValues emptySQL [("a", Value.vnum 1), ("b", Value.vnum 2)]
        (some [("a", Value.vnum 1), ("b", Value.vnum 3)]) =
      ⟨"SET `b` = ?", [Value.vnum 2], false⟩ := by
  refine ⟨fun values orig => ?_, by decide, by decide⟩
  induction values with
  | nil => rfl
  | cons p rest ih =>
    obtain ⟨k, v⟩ := p
    by_cases h1 : (reservedKey k || isFunc v) = true
    · have hf : setKeep orig (k, v) = false := by simp [setKeep, h1]
      simp [setEntries, h1, List.filter_cons, hf, ih]
    · by_cases h2 : setSkip orig k v = true
      · have hf : setKeep orig (k, v) = false := by simp [setKeep, h2]
        simp [setEntries, h1, h2, List.filter_cons, hf, ih]
      · have hf : setKeep orig (k, v) = true := by
          simp [setKeep, h1, h2]
        simp [setEntries, h1, h2, List.filter_cons, hf, ih]

/-! ## C8: debug rendering of placeholders -/

theorem renderParam_of_unsupported (v : Value) (h : unsupportedParam v = true) :
    renderParam v = Except.error (errMsg (typeofStr v)) := by
  cases v <;> simp_all [renderParam, unsupportedParam]

theorem renderParam_of_supported (v : Value) (h : unsupportedParam v = false) :
    ∃ r, renderParam v = Except.ok r := by
  cases v <;> simp_all [renderParam, unsupportedParam]

theorem emap_error (f : String → String) (e : String) :
    Except.map f (Except.error e : Except String String) = Except.error e := rfl

theorem emap_ok (f : String → String) (s : String) :
    Except.map f (Except.ok s : Except String String) = Except.ok (f s) := rfl

theorem rp_nil (ps : List Value) : replaceParams [] ps = Except.ok "" := rfl

theorem rp_q_nil (rest : List Char) :
    replaceParams ('?' :: rest) [] =
      match replaceParams rest [] with
      | Except.error e => Except.error e
      | Except.ok s => Except.ok ("?" ++ s) := rfl

theorem rp_q_cons (rest : List Char) (p : Value) (tl : List Value) :
    replaceParams ('?' :: rest) (p :: tl) =
      match renderParam p with
      | Except.error e => Except.error e
      | Except.ok r =>
        match replaceParams rest tl with
        | Except.error e => Except.error e
        | Except.ok s => Except.ok (r ++ s) := rfl

theorem rp_nq (c : Char) (rest : List Char) (ps : List Value) (hc : c ≠ '?') :
    replaceParams (c :: rest) ps =
      match replaceParams rest ps with
      | Except.error e => Except.error e
      | Except.ok s => Except.ok (c.toString ++ s) := by
  simp [replaceParams, hc]

theorem asString_data (s : String) : s.data.asString = s := rfl

theorem replaceParams_noParams : ∀ cs : List Char, replaceParams cs [] = Except.ok cs.asString := by
  intro cs
  induction cs with
  | nil => rfl
  | cons c rest ih =>
    by_cases hc : c = '?'
    · subst hc
      rw [rp_q_nil, ih]
      rfl
    · rw [rp_nq c rest [] hc, ih]
      rfl

theorem replaceParams_first (s1 : List Char) :
    ∀ (p : Value) (ps : List Value) (r : String) (s2 : List Char),
      '?' ∉ s1 → renderParam p = Except.ok r →
      replaceParams (s1 ++ '?' :: s2) (p :: ps) =
        (replaceParams s2 ps).map fun t => s1.asString ++ (r ++ t) := by
  induction s1 with
  | nil =>
    intro p ps r s2 _ hr
    rw [List.nil_append, rp_q_cons s2 p ps, hr]
    cases h : replaceParams s2 ps with
    | error e => rw [emap_error]
    | ok s => rw [emap_ok]; rfl
  | cons c rest ih =>
    intro p ps r s2 hq hr
    have hc : c ≠ '?' := fun hcc => hq (by simp [hcc])
    have hq' : '?' ∉ rest := fun hm => hq (List.mem_cons_of_mem _ hm)
    rw [List.cons_append, rp_nq c (rest ++ '?' :: s2) (p :: ps) hc, ih p ps r s2 hq' hr]
    cases h : replaceParams s2 ps with
    | error e => rw [emap_error, emap_error]
    | ok s =>
      rw [emap_ok, emap_ok, asString_cons, String.append_assoc]

theorem replaceParams_excess (s1 : List Char) :
    ∀ (ps : List Value) (s2 : List Char), countQ s1 = ps.length →
      replaceParams (s1 ++ s2) ps = (replaceParams s1 ps).map fun t => t ++ s2.asString := by
  induction s1 with
  | nil =>
    intro ps s2 h
    have hps : ps = [] := by
      cases ps with
      | nil => rfl
      | cons p tl => simp [countQ] at h
    subst hps
    rw [List.nil_append, replaceParams_noParams, rp_nil, emap_ok]
    rfl
  | cons c rest ih =>
    intro ps s2 h
    by_cases hc : c = '?'
    · subst hc
      cases ps with
      | nil => simp [countQ, Nat.add_comm] at h
      | cons p tl =>
        have h' : countQ rest = tl.length := by
          simp [countQ] at h
          omega
        rw [List.cons_append, rp_q_cons (rest ++ s2) p tl, rp_q_cons rest p tl]
        cases hp : renderParam p with
        | error e => rw [emap_error]
        | ok r =>
          rw [ih tl s2 h']
          cases hrest : replaceParams rest tl with
          | error e => rfl
          | ok s => exact congrArg Except.ok (String.append_assoc r s s2.asString).symm
    · have h' : countQ rest = ps.length := by
        simp [countQ, hc] at h
        exact h
      rw [List.cons_append, rp_nq c (rest ++ s2) ps hc, rp_nq c rest ps hc, ih ps s2 h']
      cases hrest : replaceParams rest ps with
      | error e => rfl
      | ok s => exact congrArg Except.ok (String.append_assoc c.toString s s2.asString).symm

/-- C8: the debug renderer replaces each `?` left to right with the
rendering of the corresponding parameter (`NULL` for null, decimal digits
for numbers and bigints, quote-doubled single-quoted strings, X-prefixed
quoted hex for buffers), leaves every placeholder beyond the bound
parameters as a literal question mark, and on the concrete inputs of the
claim produces `SELECT * FROM t WHERE id=5` and the quote-doubled
rendering of the name O Brien. -/
theorem claim_C8 :
    (∀ (s1 : List Char) (p : Value) (ps : List Value) (r : String) (s2 : List Char),
      '?' ∉ s1 → renderParam p = Except.ok r →
      replaceParams (s1 ++ '?' :: s2) (p :: ps) =
        (replaceParams s2 ps).map fun t => s1.asString ++ (r ++ t)) ∧
    (∀ (s1 : List Char) (ps : List Value) (s2 : List Char), countQ s1 = ps.length →
      replaceParams (s1 ++ s2) ps = (replaceParams s1 ps).map fun t => t ++ s2.asString) ∧
    (∀ b : SQLState, b.params = [] → SQLState.toString b = Except.ok b.sql) ∧
    renderParam Value.vnull = Except.ok "NULL" ∧
    (∀ n : Int, renderParam (Value.vnum n) = Except.ok (toString n)) ∧
    (∀ s : String, renderParam (Value.vstr s) = Except.ok (quoteString s)) ∧
    (∀ bytes : List Nat,
      renderParam (Value.vbuf bytes) = Except.ok ("X\x27" ++ bufHex bytes ++ "\x27")) ∧
    SQLState.toString (mkSQL "SELECT * FROM t WHERE id=?" [Value.vnum 5]) =
      Except.ok "SELECT * FROM t WHERE id=5" ∧
    renderParam (Value.vstr "O\x27Brien") = Except.ok "\x27O\x27\x27Brien\x27" ∧
    SQLState.toString (mkSQL "SELECT * FROM u WHERE name=?" [Value.vstr "O\x27Brien"]) =
      Except.ok "SELECT * FROM u WHERE name=\x27O\x27\x27Brien\x27" := by
  refine ⟨replaceParams_first, replaceParams_excess, fun b h => ?_, rfl, fun n => rfl,
    fun s => rfl, fun bytes => rfl, rfl, rfl, rfl⟩
  show replaceParams b.sql.data b.params = Except.ok b.sql
  rw [h, replaceParams_noParams, asString_data]

/-- C8 witness: the general conjuncts instantiated at concrete inputs. -/
theorem claim_C8_witness :
    replaceParams (['i', 'd', '='] ++ '?' :: []) [Value.vnum 7] =
      (replaceParams [] []).map (fun t => ['i', 'd', '='].asString ++ ("7" ++ t)) ∧
    replaceParams (['x', '?'] ++ ['?', '?']) [Value.vnum 1] =
      (replaceParams ['x', '?'] [Value.vnum 1]).map (fun t => t ++ ['?', '?'].asString) ∧
    SQLState.toString ⟨"no placeholders", [], false⟩ = Except.ok "no placeholders" :=
  ⟨claim_C8.1 ['i', 'd', '='] (Value.vnum 7) [] "7" [] (by decide) (by rfl),
    claim_C8.2.1 ['x', '?'] [Value.vnum 1] ['?', '?'] (by decide),
    claim_C8.2.2.1 ⟨"no placeholders", [], false⟩ rfl⟩

/-! ## C9: unsupported parameter types make toString throw -/

theorem replaceParams_error (cs : List Char) :
    ∀ (ps : List Value) (i : Nat), i < countQ cs → ∀ h2 : i < ps.length,
      unsupportedParam (ps.get ⟨i, h2⟩) = true →
      ∃ j, ∃ hj : j < ps.length, j ≤ i ∧ unsupportedParam (ps.get ⟨j, hj⟩) = true ∧
        replaceParams cs ps = Except.error (errMsg (typeofStr (ps.get ⟨j, hj⟩))) := by
  induction cs with
  | nil => intro ps i h1; simp [countQ] at h1
  | cons c rest ih =>
    intro ps i h1 h2 h3
    by_cases hc : c = '?'
    · subst hc
      cases ps with
      | nil => simp at h2
      | cons p tl =>
        by_cases hp : unsupportedParam p = true
        · refine ⟨0, by simp, Nat.zero_le _, by simpa using hp, ?_⟩
          rw [rp_q_cons rest p tl, renderParam_of_unsupported p hp]
          rfl
        · cases i with
          | zero => simp at h3; exact absurd h3 hp
          | succ i' =>
            have h1' : i' < countQ rest := by
              simp [countQ] at h1
              omega
            have h2' : i' < tl.length := by simpa using h2
            have h3' : unsupportedParam (tl.get ⟨i', h2'⟩) = true := by simpa using h3
            obtain ⟨j, hj, hle, hu, he⟩ := ih tl i' h1' h2' h3'
            obtain ⟨r, hr⟩ := renderParam_of_supported p (by simpa using hp)
            refine ⟨j + 1, by simpa using Nat.succ_lt_succ hj, Nat.succ_le_succ hle,
              by simpa using hu, ?_⟩
            rw [rp_q_cons rest p tl, hr, he]
            rfl
    · have h1' : i < countQ rest := by
        simp [countQ, hc] at h1
        exact h1
      obtain ⟨j, hj, hle, hu, he⟩ := ih ps i h1' h2 h3
      exact ⟨j, hj, hle, hu, by rw [rp_nq c rest ps hc, he]⟩

/-- C9: whenever the parameter corresponding to some placeholder has an
unsupported type (boolean, plain object, function), `toString` throws an
error whose message names the offending runtime type — the error raised
by the first such parameter. -/
theorem claim_C9 (b : SQLState) (i : Nat) (h1 : i < countQ b.sql.data)
    (h2 : i < b.params.length) (h3 : unsupportedParam (b.params.get ⟨i, h2⟩) = true) :
    ∃ j, ∃ hj : j < b.params.length, j ≤ i ∧ unsupportedParam (b.params.get ⟨j, hj⟩) = true ∧
      SQLState.toString b = Except.error (errMsg (typeofStr (b.params.get ⟨j, hj⟩))) :=
  replaceParams_error b.sql.data b.params i h1 h2 h3

/-- C9 witness: a boolean parameter makes `toString` throw the
Invalid-parameter-type error naming the runtime type boolean. -/
theorem claim_C9_witness :
    SQLState.toString ⟨"x=?", [Value.vbool true], false⟩ =
      Except.error (errMsg "boolean") := by
  obtain ⟨j, hj, hle, hu, he⟩ :=
    claim_C9 ⟨"x=?", [Value.vbool true], false⟩ 0 (by decide) (by decide) (by decide)
  have hj0 : j = 0 := Nat.le_zero.mp hle
  subst hj0
  exact he
